import Mathlib

set_option maxRecDepth 10000

/-!
Shallow embedding of the AIVIA mock-interview client (`app.js`).

The program is a single class `AIVIAApp` holding a mutable session record
(`this.state`), a DOM it renders into, and scheduled timer callbacks
(`setTimeout` / `setInterval`).  We embed it as pure functions over an
`App` structure that carries:
  * `st`      — the session record (`this.state`),
  * `dom`     — the DOM fields the program reads or writes,
  * `pending` — the list of scheduled timer callbacks, each tagged with
                the slot it was stored in (`this.timers.interview`,
                `this.timers.setup`, or an anonymous local handle),
  * `uploadProgressVal` — the `progress` closure variable of
                `showUploadProgress` (a per-upload local in the source),
  * `now`     — the value `Date.now()` would return.

`Math.random()` outcomes are supplied to each callback as a natural
number argument `rnd`; where the source computes `5 + Math.random()*15`
we use `5 + rnd % 15`, and where it indexes `mockResponses` with
`Math.floor(Math.random()*length)` we use `rnd % length`.  Timer delays
are recorded on each scheduled timer for fidelity; firing a callback is
modelled by `fireCb`, which runs a callback only when it is pending and
consumes it (intervals re-schedule themselves, as a live `setInterval`
does).  Float-only display formatting (`formatFileSize`, the fractional
progress-bar width) is not modelled beyond integer truncation; no claim
depends on it.
-/

structure Role where
  id : String
  name : String
  description : String
  color : String
  icon : String
  questions : List String
deriving DecidableEq

/-- The fixed six-entry role catalog `this.jobRoles`. -/
def jobRoles : List Role :=
  [ { id := "SDE"
    , name := "Software Development Engineer"
    , description := "Algorithm & system design focused interview"
    , color := "#3B82F6"
    , icon := "💻"
    , questions :=
      [ "Tell me about a challenging algorithm problem you\x27ve solved recently?"
      , "How would you design a scalable web crawler?"
      , "What\x27s your approach to code reviews and quality?"
      , "Explain the time complexity of your favorite sorting algorithm." ] }
  , { id := "Data Analysis"
    , name := "Data Analyst"
    , description := "Analytics & insights focused interview"
    , color := "#10B981"
    , icon := "📊"
    , questions :=
      [ "Walk me through a data analysis project where you discovered insights?"
      , "How do you handle missing data in your analysis?"
      , "What visualization would you use for time series data?"
      , "Explain your approach to A/B testing." ] }
  , { id := "Full Stack"
    , name := "Full Stack Developer"
    , description := "End-to-end development interview"
    , color := "#8B5CF6"
    , icon := "🔧"
    , questions :=
      [ "Describe a full-stack project you\x27ve built from scratch?"
      , "How do you decide between different technology stacks?"
      , "What\x27s your approach to API design?"
      , "How do you handle state management in complex applications?" ] }
  , { id := "Backend"
    , name := "Backend Developer"
    , description := "Server-side & architecture interview"
    , color := "#EF4444"
    , icon := "⚙️"
    , questions :=
      [ "Tell me about a scalable system or API you\x27ve designed?"
      , "How do you approach database optimization?"
      , "Explain your strategy for handling high traffic?"
      , "What\x27s your experience with microservices?" ] }
  , { id := "Frontend"
    , name := "Frontend Developer"
    , description := "UI/UX & client-side interview"
    , color := "#F59E0B"
    , icon := "🎨"
    , questions :=
      [ "Describe a complex UI component you\x27ve built?"
      , "How do you optimize frontend performance?"
      , "What\x27s your approach to responsive design?"
      , "Explain your experience with modern frameworks." ] }
  , { id := "DevOps"
    , name := "DevOps Engineer"
    , description := "Infrastructure & automation interview"
    , color := "#6366F1"
    , icon := "🚀"
    , questions :=
      [ "Walk me through a CI/CD pipeline you\x27ve implemented?"
      , "How do you approach infrastructure as code?"
      , "What\x27s your experience with container orchestration?"
      , "Explain your monitoring and alerting strategy." ] } ]

/-- The canned reply list `this.mockResponses`. -/
def mockResponses : List String :=
  [ "That\x27s an interesting approach. Can you elaborate on the technical challenges?"
  , "I see you have experience with that technology. How did you handle scalability?"
  , "Great! Now let\x27s dive deeper into the implementation details."
  , "That\x27s a solid solution. What alternative approaches did you consider?"
  , "Excellent point. How would you improve this in a production environment?" ]

/-- A user-selected file: the `name`, `size` and `type` fields the code reads. -/
structure UFile where
  name : String
  size : Nat
  type : String
deriving DecidableEq

/-- The mutable session record `this.state`.  `interviewStartTime` and the
timestamps are naturals (milliseconds); `avatarState` is kept as a string
because `setAvatarState` takes an arbitrary string in the source. -/
structure InterviewState where
  currentScreen : String
  selectedRole : Option Role
  uploadedFile : Option UFile
  interviewActive : Bool
  currentQuestionIndex : Nat
  interviewStartTime : Option Nat
  interviewDuration : Nat
  avatarState : String
  isMuted : Bool
deriving DecidableEq

/-- Which handle a scheduled timer was stored in: a named slot of
`this.timers` (cleared by `clearTimers`) or an anonymous local
`setTimeout` / `setInterval` handle (never cleared by `clearTimers`). -/
inductive Slot where
  | interview
  | avatar
  | setup
  | anon
deriving DecidableEq

/-- The timer callbacks the program schedules. -/
inductive Cb where
  | roleAdvance
  | uploadTick (f : UFile)
  | uploadComplete (f : UFile)
  | setupStep (n : Nat)
  | setupDone
  | clockTick
  | questionSpoken
  | userSpoken
  | aiResponded
  | errorAutoHide
deriving DecidableEq

structure Timer where
  slot : Slot
  delay : Nat
  cb : Cb
deriving DecidableEq

/-- The DOM fields the program reads or writes (all elements assumed present). -/
structure Dom where
  activeScreen : String
  selectedCards : List String
  uploadAreaHidden : Bool
  uploadProgressHidden : Bool
  progressTextPct : Nat
  fileInfoHidden : Bool
  fileNameText : String
  startButtonDisabled : Bool
  fileInputValue : String
  stepsActive : List Nat
  stepsDone : List Nat
  currentRoleText : String
  currentQuestionText : String
  questionNumText : String
  totalQuestionsText : String
  progressPct : Nat
  interviewTimeText : String
  startStopText : String
  startStopActive : Bool
  muteText : String
  muteActive : Bool
  finalDurationText : String
  questionsCompletedText : String
  avatarStatusText : String
  avatarBallClasses : List String
  errorVisible : Bool
  errorMessage : String
deriving DecidableEq

structure App where
  st : InterviewState
  dom : Dom
  pending : List Timer
  uploadProgressVal : Nat
  now : Nat
deriving DecidableEq

/-- The defaults assigned to `this.state` in the constructor and in `resetApp`. -/
def initialState : InterviewState :=
  { currentScreen := "role-selection"
  , selectedRole := none
  , uploadedFile := none
  , interviewActive := false
  , currentQuestionIndex := 0
  , interviewStartTime := none
  , interviewDuration := 0
  , avatarState := "ready"
  , isMuted := false }

def initialDom : Dom :=
  { activeScreen := "role-selection"
  , selectedCards := []
  , uploadAreaHidden := false
  , uploadProgressHidden := true
  , progressTextPct := 0
  , fileInfoHidden := true
  , fileNameText := ""
  , startButtonDisabled := true
  , fileInputValue := ""
  , stepsActive := []
  , stepsDone := []
  , currentRoleText := ""
  , currentQuestionText := ""
  , questionNumText := ""
  , totalQuestionsText := ""
  , progressPct := 0
  , interviewTimeText := ""
  , startStopText := "Start Interview"
  , startStopActive := false
  , muteText := "🎤 Unmuted"
  , muteActive := false
  , finalDurationText := ""
  , questionsCompletedText := ""
  , avatarStatusText := "Ready for interview"
  , avatarBallClasses := ["avatar-ball"]
  , errorVisible := false
  , errorMessage := "" }

def initialApp : App :=
  { st := initialState, dom := initialDom, pending := [], uploadProgressVal := 0, now := 0 }

/-- `schedule`: a `setTimeout` / `setInterval` call, recording the slot the
handle is stored in (`Slot.anon` when the handle is a local variable or not
kept at all). -/
def schedule (s : Slot) (d : Nat) (c : Cb) (app : App) : App :=
  { app with pending := app.pending ++ [{ slot := s, delay := d, cb := c }] }

/-- `clearTimers`: clears the handles stored in `this.timers` (interview,
avatar, setup).  Anonymous timers are untouched — the source has no handle
to them. -/
def clearTimers (app : App) : App :=
  { app with pending := app.pending.filter (fun t => t.slot == Slot.anon) }

/-- `showScreen`: deactivates all screens, activates the target, records it
in `state.currentScreen`. -/
def showScreen (id : String) (app : App) : App :=
  { app with st := { app.st with currentScreen := id }
           , dom := { app.dom with activeScreen := id } }

/-- The `switch` in `setAvatarState`: an unknown state leaves the status
text unchanged (no `default` case in the source). -/
def avatarStatusFor (s : String) (old : String) : String :=
  if s = "ready" then "Ready for interview"
  else if s = "listening" then "Listening..."
  else if s = "speaking" then "AI is speaking..."
  else old

/-- `setAvatarState`. -/
def setAvatarState (s : String) (app : App) : App :=
  { app with
    st := { app.st with avatarState := s }
  , dom := { app.dom with
      avatarBallClasses := if s = "ready" then ["avatar-ball"] else ["avatar-ball", s]
    , avatarStatusText := avatarStatusFor s app.dom.avatarStatusText } }

/-- `selectRole`: removes the `selected` class from every card, adds it to
the chosen card, stores the role, and schedules the 800 ms auto-advance to
the upload screen.  The `setTimeout` handle is NOT stored in `this.timers`. -/
def selectRole (r : Role) (app : App) : App :=
  let app := { app with dom := { app.dom with selectedCards := [r.id] } }
  let app := { app with st := { app.st with selectedRole := some r } }
  schedule Slot.anon 800 Cb.roleAdvance app

/-- `hideError`. -/
def hideError (app : App) : App :=
  { app with dom := { app.dom with errorVisible := false } }

/-- `showError`: sets the message, shows the toast, schedules an anonymous
5000 ms auto-hide. -/
def showError (m : String) (app : App) : App :=
  let app := { app with dom := { app.dom with errorMessage := m, errorVisible := true } }
  schedule Slot.anon 5000 Cb.errorAutoHide app

/-- `toLowerCase()`: lower-case every character (kernel-reducible version
of `String.toLower`). -/
def strToLower (s : String) : String := String.mk (s.data.map Char.toLower)

/-- `endsWith`: suffix test on the character sequence (kernel-reducible
version of `String.endsWith`). -/
def strEndsWith (s p : String) : Bool := p.data.isSuffixOf s.data

/-- The MIME allow-list `validTypes` of `handleFileUpload`. -/
def validTypes : List String :=
  [ "application/pdf"
  , "application/vnd.openxmlformats-officedocument.wordprocessingml.document"
  , "application/msword" ]

/-- `isValidType` of `handleFileUpload`: MIME in the allow-list OR the
lowercased name ends in .pdf / .docx / .doc. -/
def isValidType (f : UFile) : Bool :=
  validTypes.contains f.type
    || strEndsWith (strToLower f.name) ".pdf"
    || strEndsWith (strToLower f.name) ".docx"
    || strEndsWith (strToLower f.name) ".doc"

/-- `maxSize = 10 * 1024 * 1024` in `handleFileUpload`. -/
def maxSize : Nat := 10 * 1024 * 1024

/-- `showUploadProgress`: hides the drop area, shows the progress widget,
starts the anonymous 150 ms interval (`progressInterval` is a local
variable, never put in `this.timers`); the `progress` closure variable
starts at 0. -/
def showUploadProgress (f : UFile) (app : App) : App :=
  let app := { app with
      dom := { app.dom with uploadAreaHidden := true, uploadProgressHidden := false }
    , uploadProgressVal := 0 }
  schedule Slot.anon 150 (Cb.uploadTick f) app

/-- `handleFileUpload`: type check, then size check, then the progress
simulation.  Both rejections only raise the error toast and return. -/
def handleFileUpload (f : UFile) (app : App) : App :=
  if !isValidType f then
    showError "Please upload a PDF or DOCX file" app
  else if f.size > maxSize then
    showError "File size must be less than 10MB" app
  else
    showUploadProgress f app

/-- `completeUpload`: swaps the progress widget for the file info card,
stores the file in `state.uploadedFile`, enables the start button. -/
def completeUpload (f : UFile) (app : App) : App :=
  { app with
    dom := { app.dom with
        uploadProgressHidden := true
      , fileInfoHidden := false
      , fileNameText := f.name
      , startButtonDisabled := false }
  , st := { app.st with uploadedFile := some f } }

/-- `removeFile`: shows the drop area, hides the file info, clears the
stored file, disables the start button, empties the file input. -/
def removeFile (app : App) : App :=
  { app with
    dom := { app.dom with
        uploadAreaHidden := false
      , fileInfoHidden := true
      , startButtonDisabled := true
      , fileInputValue := "" }
  , st := { app.st with uploadedFile := none } }

/-- One call of the local `processStep` closure of `simulateSetupProcess`
with `currentStep = n`.  For `n < 3` it activates step `n` and stores the
next 1500 ms timeout in `this.timers.setup`; for `n = 3` it schedules the
transition to the voice interview with an anonymous (unstored) 1000 ms
timeout.  No branch consults `interviewActive`. -/
def processStep (n : Nat) (app : App) : App :=
  let app :=
    if 0 < n then
      { app with dom := { app.dom with stepsDone := app.dom.stepsDone ++ [n - 1] } }
    else app
  if n < 3 then
    let app := { app with dom := { app.dom with stepsActive := app.dom.stepsActive ++ [n] } }
    schedule Slot.setup 1500 (Cb.setupStep (n + 1)) app
  else
    schedule Slot.anon 1000 Cb.setupDone app

/-- `simulateSetupProcess` calls `processStep()` synchronously once. -/
def simulateSetupProcess (app : App) : App :=
  processStep 0 app

/-- `startInterviewSetup`. -/
def startInterviewSetup (app : App) : App :=
  simulateSetupProcess (showScreen "interview-setup" app)

/-- `getCurrentQuestions`. -/
def getCurrentQuestions (app : App) : List String :=
  match app.st.selectedRole with
  | some r => r.questions
  | none => []

/-- `updateInterviewProgress` (the fractional bar width is truncated to a
natural percentage). -/
def updateInterviewProgress (app : App) : App :=
  match app.st.selectedRole with
  | some _ =>
    let total := (getCurrentQuestions app).length
    let current := app.st.currentQuestionIndex + 1
    { app with dom := { app.dom with
        questionNumText := toString current
      , totalQuestionsText := toString total
      , progressPct := current * 100 / total } }
  | none => app

/-- `updateCurrentQuestion`: with an argument, show it; with none, show the
current question when a role is selected and the index is in range. -/
def updateCurrentQuestion (t : Option String) (app : App) : App :=
  match t with
  | some s => { app with dom := { app.dom with currentQuestionText := s } }
  | none =>
    if app.st.selectedRole.isSome
        && app.st.currentQuestionIndex < (getCurrentQuestions app).length then
      { app with dom := { app.dom with
          currentQuestionText := (getCurrentQuestions app).getD app.st.currentQuestionIndex "" } }
    else app

/-- `startVoiceInterview`: shows the interview screen, writes the role
name, initialises progress/question displays, sets the avatar to ready.
It does not consult `interviewActive`. -/
def startVoiceInterview (app : App) : App :=
  let app := showScreen "voice-interview" app
  let app :=
    match app.st.selectedRole with
    | some r => { app with dom := { app.dom with currentRoleText := r.name } }
    | none => app
  setAvatarState "ready" (updateCurrentQuestion none (updateInterviewProgress app))

/-- `toString().padStart(2, "0")` on a natural. -/
def pad2 (n : Nat) : String :=
  if n < 10 then "0" ++ toString n else toString n

/-- `formatDuration`. -/
def formatDuration (ms : Nat) : String :=
  let s := ms / 1000
  pad2 (s / 60) ++ ":" ++ pad2 (s % 60)

/-- `startInterviewTimer`: the per-second clock interval, stored in
`this.timers.interview`. -/
def startInterviewTimer (app : App) : App :=
  schedule Slot.interview 1000 Cb.clockTick app

/-- `beginQuestionFlow`: avatar speaking, show the question, schedule the
anonymous 3000 ms "question spoken" step. -/
def beginQuestionFlow (app : App) : App :=
  schedule Slot.anon 3000 Cb.questionSpoken
    (updateCurrentQuestion none (setAvatarState "speaking" app))

/-- `simulateInterviewFlow`: bails out when inactive, else schedules the
anonymous "user finished speaking" step after 10–20 s. -/
def simulateInterviewFlow (rnd : Nat) (app : App) : App :=
  if !app.st.interviewActive then app
  else schedule Slot.anon (10000 + rnd % 10000) Cb.userSpoken app

/-- `pauseInterview`: deactivates the session, relabels the button
"Resume Interview", avatar ready, clears the stored timers. -/
def pauseInterview (app : App) : App :=
  let app := { app with
      st := { app.st with interviewActive := false }
    , dom := { app.dom with startStopText := "Resume Interview", startStopActive := false } }
  clearTimers (setAvatarState "ready" app)

/-- `toggleInterview`: the start branch activates the session, captures
`Date.now()`, RESETS `currentQuestionIndex` to 0, starts the clock and the
question flow; the stop branch is exactly `pauseInterview`. -/
def toggleInterview (app : App) : App :=
  if !app.st.interviewActive then
    let app := { app with
        st := { app.st with
            interviewActive := true
          , interviewStartTime := some app.now
          , currentQuestionIndex := 0 }
      , dom := { app.dom with startStopText := "Stop Interview", startStopActive := true } }
    beginQuestionFlow (startInterviewTimer app)
  else
    pauseInterview app

/-- `toggleMute`. -/
def toggleMute (app : App) : App :=
  let m := !app.st.isMuted
  { app with
    st := { app.st with isMuted := m }
  , dom := { app.dom with
      muteText := if m then "🎤 Muted" else "🎤 Unmuted"
    , muteActive := m } }

/-- `completeInterview`: deactivates, clears stored timers, freezes the
duration and the capped questions-completed display, shows the completion
screen. -/
def completeInterview (app : App) : App :=
  let app := clearTimers { app with st := { app.st with interviewActive := false } }
  let app := { app with dom := { app.dom with
      finalDurationText := formatDuration app.st.interviewDuration } }
  let app :=
    match app.st.selectedRole with
    | some _ =>
      let total := (getCurrentQuestions app).length
      { app with dom := { app.dom with
          questionsCompletedText :=
            toString (min (app.st.currentQuestionIndex + 1) total) ++ "/" ++ toString total } }
    | none => app
  showScreen "interview-complete" app

/-- `endInterview`. -/
def endInterview (app : App) : App :=
  completeInterview (clearTimers { app with st := { app.st with interviewActive := false } })

/-- `resetApp`: clears stored timers, reinstates the default state record,
unselects every role card, resets the upload widget, returns to the first
screen.  Anonymous timers survive — the source holds no handle to them. -/
def resetApp (app : App) : App :=
  let app := clearTimers app
  let app := { app with st := initialState }
  let app := { app with dom := { app.dom with selectedCards := [] } }
  showScreen "role-selection" (removeFile app)

/-- The body of each timer callback, given the `Math.random()` draw `rnd`
made when it runs. -/
def runCb (rnd : Nat) (c : Cb) (app : App) : App :=
  match c with
  | Cb.roleAdvance => showScreen "resume-upload" app
  | Cb.uploadTick f =>
    let inc := 5 + rnd % 15
    let p := app.uploadProgressVal + inc
    let p := if 100 < p then 100 else p
    let app := { app with uploadProgressVal := p
                        , dom := { app.dom with progressTextPct := p } }
    if 100 ≤ p then
      schedule Slot.anon 500 (Cb.uploadComplete f) app
    else
      schedule Slot.anon 150 (Cb.uploadTick f) app
  | Cb.uploadComplete f => completeUpload f app
  | Cb.setupStep n => processStep n app
  | Cb.setupDone => startVoiceInterview app
  | Cb.clockTick =>
    let d := app.now - (app.st.interviewStartTime.getD app.now)
    let app := { app with
        st := { app.st with interviewDuration := d }
      , dom := { app.dom with interviewTimeText := formatDuration d } }
    schedule Slot.interview 1000 Cb.clockTick app
  | Cb.questionSpoken =>
    if app.st.interviewActive then
      simulateInterviewFlow rnd (setAvatarState "listening" app)
    else app
  | Cb.userSpoken =>
    if !app.st.interviewActive then app
    else
      let app := setAvatarState "speaking" app
      let response := mockResponses.getD (rnd % mockResponses.length) ""
      schedule Slot.anon 3000 Cb.aiResponded (updateCurrentQuestion (some response) app)
  | Cb.aiResponded =>
    if !app.st.interviewActive then app
    else
      let app := { app with st := { app.st with
          currentQuestionIndex := app.st.currentQuestionIndex + 1 } }
      if app.st.currentQuestionIndex < (getCurrentQuestions app).length then
        beginQuestionFlow (updateInterviewProgress app)
      else
        completeInterview app
  | Cb.errorAutoHide => hideError app

/-- Firing a callback: it runs only when a timer for it is pending, and
its (first) pending timer is consumed; interval callbacks re-schedule
themselves inside `runCb`. -/
def fireCb (rnd : Nat) (c : Cb) (app : App) : App :=
  if app.pending.any (fun t => t.cb == c) then
    runCb rnd c { app with pending := app.pending.eraseP (fun t => t.cb == c) }
  else app

/-! ## Concrete scenario states

The full-flow scenario of the spec: select the Backend role, upload a
valid 2 MiB `resume.docx`, run the three-step setup, and drive the
scripted question cycle.  Each state is obtained only by applying the
embedded operations and firing the callbacks they scheduled. -/

/-- The fourth catalog entry (`id = "Backend"`, 4 questions). -/
def backendRole : Role :=
  jobRoles.getD 3
    { id := "", name := "", description := "", color := "", icon := "", questions := [] }

/-- A 2 MiB `resume.docx` with the DOCX MIME type. -/
def docxFile : UFile :=
  { name := "resume.docx", size := 2 * 1024 * 1024
  , type := "application/vnd.openxmlformats-officedocument.wordprocessingml.document" }

/-- A file with neither an allow-listed MIME type nor an allowed extension. -/
def exeFile : UFile :=
  { name := "resume.exe", size := 1024, type := "application/x-msdownload" }

/-- An 11 MiB `resume.pdf`: valid type, oversized. -/
def bigPdfFile : UFile :=
  { name := "resume.pdf", size := 11 * 1024 * 1024, type := "application/pdf" }

/-- A file with a disallowed extension but an allow-listed MIME type. -/
def exePdfFile : UFile :=
  { name := "resume.exe", size := 1024, type := "application/pdf" }

/-- After clicking the Backend role card. -/
def appAfterSelect : App := selectRole backendRole initialApp

/-- After the 800 ms auto-advance fires: on the upload screen. -/
def appOnUpload : App := fireCb 0 Cb.roleAdvance appAfterSelect

/-- After submitting the valid file: progress simulation running. -/
def appUploading : App := handleFileUpload docxFile appOnUpload

/-- Fire a sequence of progress-interval ticks with the given random draws. -/
def fireTicks (rs : List Nat) (f : UFile) (app : App) : App :=
  match rs with
  | [] => app
  | r :: rest => fireTicks rest f (fireCb r (Cb.uploadTick f) app)

/-- Six maximal ticks reach 100 %; then the 500 ms completion timeout fires. -/
def appUploadDone : App :=
  fireCb 0 (Cb.uploadComplete docxFile) (fireTicks [14, 14, 14, 14, 14, 14] docxFile appUploading)

/-- After clicking "start interview": the setup screen with step 1 active. -/
def appSetup : App := startInterviewSetup appUploadDone

/-- After the three stored setup timeouts have fired in order; the anonymous
1000 ms transition to the voice interview is now pending. -/
def appSetupRun : App :=
  fireCb 0 (Cb.setupStep 3) (fireCb 0 (Cb.setupStep 2) (fireCb 0 (Cb.setupStep 1) appSetup))

/-- On the voice-interview screen, avatar ready, nothing started yet. -/
def appVoice : App := fireCb 0 Cb.setupDone appSetupRun

/-- After pressing the start/stop control: interview active, question 0. -/
def startQA : App := toggleInterview appVoice

/-- One full scripted question cycle: the question-spoken step, the
user-finished-speaking step, and the AI-responded step, in the order the
program schedules them. -/
def fireCycle (app : App) : App :=
  fireCb 0 Cb.aiResponded (fireCb 0 Cb.userSpoken (fireCb 0 Cb.questionSpoken app))

/-- After all four cycles of the Backend role. -/
def appDone : App := fireCycle (fireCycle (fireCycle (fireCycle startQA)))

/-- The avatar-state invariant: one of the three enumerated values. -/
def avatarOk (app : App) : Prop :=
  app.st.avatarState = "ready" ∨ app.st.avatarState = "listening"
    ∨ app.st.avatarState = "speaking"

/-! ## Helper lemmas -/

lemma schedule_st (s : Slot) (d : Nat) (c : Cb) (app : App) :
    (schedule s d c app).st = app.st := rfl

lemma updateCurrentQuestion_st (t : Option String) (app : App) :
    (updateCurrentQuestion t app).st = app.st := by
  cases t with
  | some s => rfl
  | none =>
    unfold updateCurrentQuestion
    dsimp only
    split <;> rfl

lemma updateInterviewProgress_st (app : App) :
    (updateInterviewProgress app).st = app.st := by
  unfold updateInterviewProgress
  split <;> rfl

lemma simulateInterviewFlow_st (rnd : Nat) (app : App) :
    (simulateInterviewFlow rnd app).st = app.st := by
  unfold simulateInterviewFlow
  split <;> rfl

lemma beginQuestionFlow_avatar (app : App) :
    (beginQuestionFlow app).st.avatarState = "speaking" := by
  show (schedule _ _ _ _).st.avatarState = "speaking"
  rw [schedule_st, updateCurrentQuestion_st]
  rfl

lemma completeInterview_avatar (app : App) :
    (completeInterview app).st.avatarState = app.st.avatarState := by
  unfold completeInterview
  dsimp only
  split <;> rfl

lemma handleFileUpload_avatar (f : UFile) (app : App) :
    (handleFileUpload f app).st.avatarState = app.st.avatarState := by
  unfold handleFileUpload
  split
  · rfl
  · split <;> rfl

lemma toggle_start_index (app : App) (h : app.st.interviewActive = false) :
    (toggleInterview app).st.currentQuestionIndex = 0 := by
  unfold toggleInterview
  rw [h]
  show (beginQuestionFlow _).st.currentQuestionIndex = 0
  show (schedule _ _ _ _).st.currentQuestionIndex = 0
  rw [schedule_st, updateCurrentQuestion_st]
  rfl

lemma toggle_stop_eq (app : App) (h : app.st.interviewActive = true) :
    toggleInterview app = pauseInterview app := by
  unfold toggleInterview
  rw [h]
  rw [if_neg (by decide)]

lemma avatarOk_of_eq {app app2 : App}
    (h : app2.st.avatarState = app.st.avatarState) (h2 : avatarOk app) : avatarOk app2 := by
  unfold avatarOk at *
  rw [h]
  exact h2

lemma beginQuestionFlow_avatarOk (app : App) : avatarOk (beginQuestionFlow app) := by
  unfold avatarOk
  rw [beginQuestionFlow_avatar]
  right
  right
  rfl

lemma toggleInterview_avatarOk (app : App) : avatarOk (toggleInterview app) := by
  unfold toggleInterview
  cases h : app.st.interviewActive with
  | false =>
    have hc : (!false) = true := rfl
    rw [if_pos hc]
    exact beginQuestionFlow_avatarOk _
  | true =>
    have hc : ¬ ((!true) = true) := by simp
    rw [if_neg hc]
    left
    rfl

lemma completeInterview_avatarOk (app : App) (h : avatarOk app) :
    avatarOk (completeInterview app) :=
  avatarOk_of_eq (completeInterview_avatar app) h

lemma endInterview_avatarOk (app : App) (h : avatarOk app) :
    avatarOk (endInterview app) := by
  unfold endInterview
  exact avatarOk_of_eq (completeInterview_avatar _) h

lemma sched_ucq_avatar (s : Slot) (d : Nat) (c : Cb) (t : Option String) (av : String)
    (app : App) :
    (schedule s d c (updateCurrentQuestion t (setAvatarState av app))).st.avatarState = av := by
  rw [schedule_st, updateCurrentQuestion_st]
  rfl

lemma runCb_avatarOk (rnd : Nat) (c : Cb) (app : App) (h : avatarOk app) :
    avatarOk (runCb rnd c app) := by
  cases c with
  | roleAdvance => exact h
  | uploadTick f =>
    unfold runCb
    dsimp only
    split <;> split <;> exact h
  | uploadComplete f => exact h
  | setupStep n =>
    show avatarOk (processStep n app)
    unfold processStep
    dsimp only
    split <;> split <;> exact h
  | setupDone => left; rfl
  | clockTick => exact h
  | questionSpoken =>
    unfold runCb
    dsimp only
    split
    · unfold avatarOk
      rw [show (simulateInterviewFlow rnd (setAvatarState "listening" app)).st
            = (setAvatarState "listening" app).st from simulateInterviewFlow_st rnd _]
      right
      left
      rfl
    · exact h
  | userSpoken =>
    unfold runCb
    dsimp only
    split
    · exact h
    · unfold avatarOk
      rw [sched_ucq_avatar]
      right
      right
      rfl
  | aiResponded =>
    unfold runCb
    dsimp only
    split
    · exact h
    · split
      · unfold avatarOk
        rw [beginQuestionFlow_avatar]
        right
        right
        rfl
      · exact completeInterview_avatarOk _ h
  | errorAutoHide => exact h

/-! ## Claims -/

/-- Claim C1, counterexample: the claim says resuming continues from the
question index that was current at the pause.  After two full question
cycles the live session is at index 2; pausing (the stop branch of
`toggleInterview`) keeps index 2, but resuming (the start branch) resets
the index to 0, re-running questions 1 and 2. -/
theorem aivia_c1_resume_restarts_cex :
    (fireCycle (fireCycle startQA)).st.interviewActive = true
    ∧ (fireCycle (fireCycle startQA)).st.currentQuestionIndex = 2
    ∧ (toggleInterview (fireCycle (fireCycle startQA))).st.interviewActive = false
    ∧ (toggleInterview (fireCycle (fireCycle startQA))).st.currentQuestionIndex = 2
    ∧ (toggleInterview (toggleInterview (fireCycle (fireCycle startQA)))).st.currentQuestionIndex
        = 0 := by
  refine ⟨by decide, by decide, by decide, by decide, by decide⟩

/-- Claim C1, amended: pausing an active interview (the stop branch of
`toggleInterview`, which is exactly `pauseInterview`) leaves
`currentQuestionIndex` and `interviewDuration` unchanged and sets
`avatarState` to ready; but resuming via `toggleInterview` resets
`currentQuestionIndex` to 0, so the flow continues from the index current
at the pause only when that index was 0 (as in the spec scenario of
pausing during the first question cycle). -/
theorem aivia_c1_pause_resume (app : App) (h : app.st.interviewActive = true) :
    (pauseInterview app).st.currentQuestionIndex = app.st.currentQuestionIndex
    ∧ (pauseInterview app).st.interviewDuration = app.st.interviewDuration
    ∧ (pauseInterview app).st.avatarState = "ready"
    ∧ toggleInterview app = pauseInterview app
    ∧ (toggleInterview (toggleInterview app)).st.currentQuestionIndex = 0
    ∧ (app.st.currentQuestionIndex = 0 →
        (toggleInterview (toggleInterview app)).st.currentQuestionIndex
          = app.st.currentQuestionIndex) := by
  have hpause : toggleInterview app = pauseInterview app := toggle_stop_eq app h
  have hidx : (toggleInterview (toggleInterview app)).st.currentQuestionIndex = 0 := by
    rw [hpause]
    exact toggle_start_index _ rfl
  exact ⟨rfl, rfl, rfl, hpause, hidx, fun h0 => by rw [hidx, h0]⟩

/-- Claim C1, witness: the amended theorem at the live state `startQA`. -/
theorem aivia_c1_pause_resume_witness :
    startQA.st.interviewActive = true
    ∧ (pauseInterview startQA).st.currentQuestionIndex = startQA.st.currentQuestionIndex
    ∧ (toggleInterview (toggleInterview startQA)).st.currentQuestionIndex = 0 := by
  refine ⟨by decide, (aivia_c1_pause_resume startQA (by decide)).1,
    (aivia_c1_pause_resume startQA (by decide)).2.2.2.2.1⟩

/-- Claim C2: `resetApp` does NOT cancel the anonymous 800 ms auto-advance
timeout scheduled by `selectRole` (it is never stored in `this.timers`, so
`clearTimers` misses it).  Selecting a role and resetting leaves that
timer pending; when it fires, the screen changes from role-selection to
resume-upload — a state change after reset, contradicting the claim. -/
theorem aivia_c2_reset_timer_leak :
    (resetApp appAfterSelect).st = initialState
    ∧ (resetApp appAfterSelect).pending
        = [{ slot := Slot.anon, delay := 800, cb := Cb.roleAdvance }]
    ∧ (fireCb 0 Cb.roleAdvance (resetApp appAfterSelect)).st.currentScreen = "resume-upload"
    ∧ (fireCb 0 Cb.roleAdvance (resetApp appAfterSelect)).st ≠ initialState := by
  refine ⟨by decide, by decide, by decide, by decide⟩

/-- Claim C3, counterexample: the setup-sequence callbacks never check
`interviewActive`.  After the three stored setup steps have run, the
transition to the voice interview sits in an anonymous timeout that
`resetApp` cannot clear; it fires on the reset (inactive) session and
mutates the session state, switching the screen to voice-interview. -/
theorem aivia_c3_setup_unguarded_cex :
    (resetApp appSetupRun).st.interviewActive = false
    ∧ (resetApp appSetupRun).pending
        = [{ slot := Slot.anon, delay := 1000, cb := Cb.setupDone }]
    ∧ (fireCb 0 Cb.setupDone (resetApp appSetupRun)).st.currentScreen = "voice-interview"
    ∧ (fireCb 0 Cb.setupDone (resetApp appSetupRun)).st ≠ (resetApp appSetupRun).st := by
  refine ⟨by decide, by decide, by decide, by decide⟩

/-- Claim C3, amended: the three question-cycle timer callbacks (the
question-spoken step scheduled by `beginQuestionFlow` and the two nested
steps of `simulateInterviewFlow`) each check `interviewActive` and are
complete no-ops on a paused or reset session; the setup-sequence
callbacks perform no such check (the stored setup steps rely on being
cleared, and the unstored setup-completion timeout is neither guarded nor
cleared). -/
theorem aivia_c3_cycle_callbacks_guarded (rnd : Nat) (app : App)
    (h : app.st.interviewActive = false) :
    runCb rnd Cb.questionSpoken app = app
    ∧ runCb rnd Cb.userSpoken app = app
    ∧ runCb rnd Cb.aiResponded app = app := by
  refine ⟨?_, ?_, ?_⟩ <;> simp [runCb, h]

/-- Claim C3, witness: the guarded callbacks at the inactive initial state. -/
theorem aivia_c3_cycle_callbacks_guarded_witness :
    initialApp.st.interviewActive = false
    ∧ runCb 0 Cb.questionSpoken initialApp = initialApp
    ∧ runCb 0 Cb.userSpoken initialApp = initialApp
    ∧ runCb 0 Cb.aiResponded initialApp = initialApp := by
  have h := aivia_c3_cycle_callbacks_guarded 0 initialApp rfl
  exact ⟨rfl, h.1, h.2.1, h.2.2⟩

/-- Claim C4: a file failing the type check is rejected with the
type-specific message and the session state is untouched; a type-valid
file over 10 MiB is rejected with the distinct size-specific message and
the state is untouched; the 2 MiB `resume.docx` passes both checks and,
after the progress simulation completes and the completion timeout fires,
is stored as the session's uploaded file (`completeUpload` always stores
its file). -/
theorem aivia_c4_file_validation :
    (∀ app f, isValidType f = false →
      (handleFileUpload f app).st = app.st
      ∧ (handleFileUpload f app).dom.errorVisible = true
      ∧ (handleFileUpload f app).dom.errorMessage = "Please upload a PDF or DOCX file")
    ∧ (∀ app f, isValidType f = true → maxSize < f.size →
      (handleFileUpload f app).st = app.st
      ∧ (handleFileUpload f app).dom.errorVisible = true
      ∧ (handleFileUpload f app).dom.errorMessage = "File size must be less than 10MB")
    ∧ ("Please upload a PDF or DOCX file" : String) ≠ "File size must be less than 10MB"
    ∧ isValidType docxFile = true
    ∧ docxFile.size ≤ maxSize
    ∧ appUploadDone.st.uploadedFile = some docxFile
    ∧ (∀ app f, (completeUpload f app).st.uploadedFile = some f) := by
  refine ⟨?_, ?_, by decide, by decide, by decide, by decide, fun app f => rfl⟩
  · intro app f h
    refine ⟨?_, ?_, ?_⟩ <;> simp [handleFileUpload, h, showError, schedule]
  · intro app f h1 h2
    refine ⟨?_, ?_, ?_⟩ <;> simp [handleFileUpload, h1, h2, showError, schedule]

/-- Claim C4, witness: the two rejection branches at `resume.exe` (wrong
type) and the 11 MiB `resume.pdf` (oversized). -/
theorem aivia_c4_file_validation_witness :
    isValidType exeFile = false
    ∧ (handleFileUpload exeFile initialApp).dom.errorMessage
        = "Please upload a PDF or DOCX file"
    ∧ isValidType bigPdfFile = true
    ∧ maxSize < bigPdfFile.size
    ∧ (handleFileUpload bigPdfFile initialApp).dom.errorMessage
        = "File size must be less than 10MB" := by
  refine ⟨by decide, (aivia_c4_file_validation.1 initialApp exeFile (by decide)).2.2,
    by decide, by decide,
    (aivia_c4_file_validation.2.1 initialApp bigPdfFile (by decide) (by decide)).2.2⟩

/-- Claim C5: for any session with a selected role, `completeInterview`
displays `min (currentQuestionIndex + 1) total` over `total`, so the
displayed count never exceeds the role's question count; and the full
scripted flow over the 4-question Backend role (four fired cycles) ends
on the completion screen showing "4/4". -/
theorem aivia_c5_completion_count :
    (∀ app r, app.st.selectedRole = some r →
      (completeInterview app).dom.questionsCompletedText
        = toString (min (app.st.currentQuestionIndex + 1) r.questions.length)
            ++ "/" ++ toString r.questions.length
      ∧ min (app.st.currentQuestionIndex + 1) r.questions.length ≤ r.questions.length)
    ∧ appDone.st.currentScreen = "interview-complete"
    ∧ appDone.dom.questionsCompletedText = "4/4" := by
  refine ⟨?_, by decide, by decide⟩
  intro app r h
  refine ⟨?_, Nat.min_le_right _ _⟩
  unfold completeInterview
  dsimp only
  simp [clearTimers, getCurrentQuestions, h, showScreen]

/-- Claim C5, witness: the capped display at the concrete voice-interview
state with the Backend role selected. -/
theorem aivia_c5_completion_count_witness :
    appVoice.st.selectedRole = some backendRole
    ∧ (completeInterview appVoice).dom.questionsCompletedText
        = toString (min (appVoice.st.currentQuestionIndex + 1) backendRole.questions.length)
            ++ "/" ++ toString backendRole.questions.length := by
  refine ⟨by decide, (aivia_c5_completion_count.1 appVoice backendRole (by decide)).1⟩

/-- Claim C6: selecting any catalog role leaves exactly its card selected,
stores the role in the session state, schedules the 800 ms auto-advance
whose firing moves the screen to resume-upload, and selecting the same
role again changes neither the session state nor the DOM (idempotent, no
error path exists). -/
theorem aivia_c6_select_role (r : Role) (app : App) (h : r ∈ jobRoles) :
    (selectRole r app).dom.selectedCards = [r.id]
    ∧ (selectRole r app).st.selectedRole = some r
    ∧ (selectRole r app).pending
        = app.pending ++ [{ slot := Slot.anon, delay := 800, cb := Cb.roleAdvance }]
    ∧ (fireCb 0 Cb.roleAdvance (selectRole r app)).st.currentScreen = "resume-upload"
    ∧ (selectRole r (selectRole r app)).st = (selectRole r app).st
    ∧ (selectRole r (selectRole r app)).dom = (selectRole r app).dom := by
  refine ⟨rfl, rfl, rfl, ?_, rfl, rfl⟩
  simp [fireCb, selectRole, schedule, runCb, showScreen]

/-- Claim C6, witness: the Backend role from the initial state. -/
theorem aivia_c6_select_role_witness :
    backendRole ∈ jobRoles
    ∧ (selectRole backendRole initialApp).dom.selectedCards = [backendRole.id]
    ∧ (fireCb 0 Cb.roleAdvance (selectRole backendRole initialApp)).st.currentScreen
        = "resume-upload" := by
  refine ⟨by decide, (aivia_c6_select_role backendRole initialApp (by decide)).1,
    (aivia_c6_select_role backendRole initialApp (by decide)).2.2.2.1⟩

/-- Claim C7: with no stored file, `removeFile` leaves the session state
unchanged (it has no error path), and `removeFile` is idempotent on the
whole application state. -/
theorem aivia_c7_remove_file_noop (app : App) (h : app.st.uploadedFile = none) :
    (removeFile app).st = app.st
    ∧ removeFile (removeFile app) = removeFile app := by
  refine ⟨?_, rfl⟩
  obtain ⟨⟨sc, sr, uf, ia, qi, ist, dur, av, mu⟩, d, p, u, n⟩ := app
  simp only at h
  subst h
  rfl

/-- Claim C7, witness: the initial state stores no file. -/
theorem aivia_c7_remove_file_noop_witness :
    initialApp.st.uploadedFile = none
    ∧ (removeFile initialApp).st = initialApp.st
    ∧ removeFile (removeFile initialApp) = removeFile initialApp := by
  refine ⟨rfl, (aivia_c7_remove_file_noop initialApp rfl).1,
    (aivia_c7_remove_file_noop initialApp rfl).2⟩

/-- Claim C8: `showError m` makes the banner visible with message `m` and
schedules the fixed-delay auto-hide; firing that callback hides the
banner, as does an earlier explicit `hideError`; a second `showError`
overwrites the displayed message with the most recent one (no queue). -/
theorem aivia_c8_error_banner :
    (∀ m app, (showError m app).dom.errorVisible = true)
    ∧ (∀ m app, (showError m app).dom.errorMessage = m)
    ∧ (∀ m app, (showError m app).pending.any (fun t => t.cb == Cb.errorAutoHide) = true)
    ∧ (∀ rnd m app, (runCb rnd Cb.errorAutoHide (showError m app)).dom.errorVisible = false)
    ∧ (∀ m app, (hideError (showError m app)).dom.errorVisible = false)
    ∧ (∀ m m2 app, (showError m2 (showError m app)).dom.errorMessage = m2) := by
  refine ⟨fun m app => rfl, fun m app => rfl, ?_, fun rnd m app => rfl, fun m app => rfl,
    fun m m2 app => rfl⟩
  intro m app
  simp [showError, schedule]

/-- Claim C9: every controller operation and every timer callback
preserves the invariant that `avatarState` is one of ready, listening,
speaking — each either leaves the field untouched or writes one of the
three literals. -/
theorem aivia_c9_avatar_invariant (app : App) (h : avatarOk app) :
    (∀ r, avatarOk (selectRole r app))
    ∧ (∀ f, avatarOk (handleFileUpload f app))
    ∧ (∀ f, avatarOk (completeUpload f app))
    ∧ avatarOk (removeFile app)
    ∧ avatarOk (startInterviewSetup app)
    ∧ avatarOk (startVoiceInterview app)
    ∧ avatarOk (toggleInterview app)
    ∧ avatarOk (pauseInterview app)
    ∧ avatarOk (toggleMute app)
    ∧ avatarOk (endInterview app)
    ∧ avatarOk (completeInterview app)
    ∧ avatarOk (resetApp app)
    ∧ (∀ m, avatarOk (showError m app))
    ∧ avatarOk (hideError app)
    ∧ (∀ i, avatarOk (showScreen i app))
    ∧ (∀ rnd c, avatarOk (runCb rnd c app))
    ∧ (∀ rnd c, avatarOk (fireCb rnd c app)) := by
  refine ⟨fun r => h, fun f => avatarOk_of_eq (handleFileUpload_avatar f app) h, fun f => h,
    h, h, Or.inl rfl, toggleInterview_avatarOk app, Or.inl rfl, h,
    endInterview_avatarOk app h, completeInterview_avatarOk app h, Or.inl rfl,
    fun m => h, h, fun i => h,
    fun rnd c => runCb_avatarOk rnd c app h, fun rnd c => ?_⟩
  unfold fireCb
  split
  · exact runCb_avatarOk rnd c _ h
  · exact h

/-- Claim C9, witness: the invariant holds at the initial state and is
preserved by a start toggle and by the setup-completion callback. -/
theorem aivia_c9_avatar_invariant_witness :
    avatarOk initialApp
    ∧ avatarOk (toggleInterview initialApp)
    ∧ avatarOk (runCb 0 Cb.setupDone initialApp) := by
  have h := aivia_c9_avatar_invariant initialApp (Or.inl rfl)
  exact ⟨Or.inl rfl, h.2.2.2.2.2.2.1,
    h.2.2.2.2.2.2.2.2.2.2.2.2.2.2.2.1 0 Cb.setupDone⟩

/-- Claim C10: `isValidType` is exactly the disjunction of the MIME
allow-list test and the three lowercased-extension tests, so
`resume.exe` with MIME `application/pdf` passes type validation:
`handleFileUpload` raises no error and hands it to the progress
simulation (widget shown, tick interval scheduled). -/
theorem aivia_c10_mime_or_extension :
    (∀ f, isValidType f
        = (validTypes.contains f.type || strEndsWith (strToLower f.name) ".pdf"
            || strEndsWith (strToLower f.name) ".docx" || strEndsWith (strToLower f.name) ".doc"))
    ∧ isValidType exePdfFile = true
    ∧ handleFileUpload exePdfFile appOnUpload = showUploadProgress exePdfFile appOnUpload
    ∧ (handleFileUpload exePdfFile appOnUpload).dom.errorVisible = false
    ∧ (handleFileUpload exePdfFile appOnUpload).dom.uploadProgressHidden = false
    ∧ (handleFileUpload exePdfFile appOnUpload).pending.any
        (fun t => t.cb == Cb.uploadTick exePdfFile) = true := by
  refine ⟨fun f => rfl, by decide, by decide, by decide, by decide, by decide⟩
